import Mathlib

/-!
Shallow embedding of the crate `ffi-result` (file src/lib.rs): an
FFI-compatible, ABI-stable analogue of `core::result::Result`.

The source type is
  #[repr(C)] struct Result<T, E> { kind: ResultKind, data: ResultData<T, E> }
where `ResultKind` is a two-value `repr(u8)` enum and `ResultData` is a
`repr(C)` union with arms `ok: ManuallyDrop<T>` and `err: ManuallyDrop<E>`.

Modelling choices:
* The union is modelled by the inductive `ResultData`, recording which arm
  is currently live together with its value (at the value level
  `ManuallyDrop` is the identity wrapper).  Reading a union arm that is not
  live is undefined behaviour in Rust; in the model such a read returns
  `none` (functions whose execution may read a union arm therefore return
  an `Option`, with `none` meaning the execution was undefined).
* The kind/data consistency invariant maintained by the safe API is the
  boolean predicate `Result.wf`.
* Panics of `core::result::Result::unwrap` are modelled by an inner
  `Option` layer: `some t` means a normal return of `t`, `none` means the
  call panicked (aborted without returning a value).
* Destructor accounting: the instrumented variants `okInstr` and
  `errInstr` return, next to the value the source function returns, the
  number of `T`-destructor and `E`-destructor invocations the function
  itself performs (the `ManuallyDrop::drop` calls in the source; the
  `std::mem::forget(self)` in the source is what makes the shell
  destructor `dropGlue` not run inside these functions).
-/

namespace FFI

/-- The discriminant: repr(u8) enum ResultKind { Ok, Err } (lib.rs 244-249). -/
inductive ResultKind where
  | ok : ResultKind
  | err : ResultKind
deriving DecidableEq, BEq, Repr

/-- Byte encoding of the repr(u8) discriminant: Ok = 0, Err = 1. -/
def ResultKind.toByte : ResultKind → Nat
  | .ok => 0
  | .err => 1

/-- The union ResultData<T, E> (lib.rs 251-255), modelled by its live arm. -/
inductive ResultData (T E : Type) where
  | ok (t : T) : ResultData T E
  | err (e : E) : ResultData T E

variable {T E T2 : Type}

/-- Reading the `ok` arm of the union; `none` when the `ok` arm is not the
live one (undefined behaviour in the source). -/
def ResultData.read_ok : ResultData T E → Option T
  | .ok t => some t
  | .err _ => none

/-- Reading the `err` arm of the union; `none` when the `err` arm is not
the live one (undefined behaviour in the source). -/
def ResultData.read_err : ResultData T E → Option E
  | .ok _ => none
  | .err e => some e

/-- Value-level equality of live union arms, parameterised by the
`PartialEq` implementations of the payload types. -/
def ResultData.valEq (eqT : T → T → Bool) (eqE : E → E → Bool) :
    ResultData T E → ResultData T E → Bool
  | .ok a, .ok b => eqT a b
  | .err a, .err b => eqE a b
  | .ok _, .err _ => false
  | .err _, .ok _ => false

/-- struct Result<T, E> { kind: ResultKind, data: ResultData<T, E> }
(lib.rs 10-14). -/
structure Result (T E : Type) where
  kind : ResultKind
  data : ResultData T E

/-- The kind/data consistency invariant the safe API maintains: the
discriminant names exactly the live union arm. -/
def Result.wf : Result T E → Bool
  | ⟨.ok, .ok _⟩ => true
  | ⟨.err, .err _⟩ => true
  | ⟨.ok, .err _⟩ => false
  | ⟨.err, .ok _⟩ => false

/-- Result::new_ok (lib.rs 17-24). -/
def Result.new_ok (t : T) : Result T E :=
  ⟨.ok, .ok t⟩

/-- Result::new_err (lib.rs 25-32). -/
def Result.new_err (e : E) : Result T E :=
  ⟨.err, .err e⟩

/-- Result::is_ok (lib.rs 34-36): self.kind == ResultKind::Ok. -/
def Result.is_ok (r : Result T E) : Bool :=
  r.kind == ResultKind.ok

/-- Result::is_err (lib.rs 37-39): self.kind == ResultKind::Err. -/
def Result.is_err (r : Result T E) : Bool :=
  r.kind == ResultKind.err

/-- Result::as_ref (lib.rs 61-79): copies the kind and rebuilds the union
around a borrow of the arm selected by the kind.  In the value model a
borrow is the value itself, so this reads the arm the kind names. -/
def Result.as_ref : Result T E → Option (Result T E)
  | ⟨.ok, d⟩ => (d.read_ok).map fun t => ⟨.ok, .ok t⟩
  | ⟨.err, d⟩ => (d.read_err).map fun e => ⟨.err, .err e⟩

/-- Result::ok (lib.rs 101-114): reads the kind, takes the union bits,
forgets self; on Ok moves the value out, on Err drops the `err` arm and
returns None. -/
def Result.ok : Result T E → Option (Option T)
  | ⟨.ok, d⟩ => (d.read_ok).map fun t => some t
  | ⟨.err, d⟩ => (d.read_err).map fun _ => none

/-- Result::err (lib.rs 115-128): mirror of Result::ok. -/
def Result.err : Result T E → Option (Option E)
  | ⟨.ok, d⟩ => (d.read_ok).map fun _ => none
  | ⟨.err, d⟩ => (d.read_err).map fun e => some e

/-- Result::ok, instrumented: also returns how many T-destructors and
E-destructors the call itself runs.  On Ok the value is moved out (no
destructor); on Err the source runs ManuallyDrop::drop on the `err` arm
exactly once (lib.rs 110). -/
def Result.okInstr : Result T E → Option (Option T × Nat × Nat)
  | ⟨.ok, d⟩ => (d.read_ok).map fun t => (some t, 0, 0)
  | ⟨.err, d⟩ => (d.read_err).map fun _ => (none, 0, 1)

/-- Result::err, instrumented (the drop of the `ok` arm is lib.rs 124). -/
def Result.errInstr : Result T E → Option (Option E × Nat × Nat)
  | ⟨.ok, d⟩ => (d.read_ok).map fun _ => (none, 1, 0)
  | ⟨.err, d⟩ => (d.read_err).map fun e => (some e, 0, 0)

/-- Result::into_result (lib.rs 129-143): reads the kind, takes the union
bits, forgets self, and moves the arm named by the kind into the native
core::result::Result (modelled by Except, with Except.ok as Ok). -/
def Result.into_result : Result T E → Option (Except E T)
  | ⟨.ok, d⟩ => (d.read_ok).map fun t => Except.ok t
  | ⟨.err, d⟩ => (d.read_err).map fun e => Except.error e

/-- Result::from_result (lib.rs 144-149). -/
def Result.from_result : Except E T → Result T E
  | .ok t => Result.new_ok t
  | .error e => Result.new_err e

/-- Result::map (lib.rs 151-153): self.into_result().map(op).into(), where
core Result::map applies op to the Ok arm only. -/
def Result.map (r : Result T E) (op : T → T2) : Option (Result T2 E) :=
  (r.into_result).map fun nr => Result.from_result (Except.map op nr)

/-- core::result::Result::unwrap: returns the Ok value, panics on Err.
The panic is modelled by `none`. -/
def coreUnwrap : Except E T → Option T
  | .ok t => some t
  | .error _ => none

/-- Result::unwrap (lib.rs 167-169): self.into_result().unwrap().  Outer
Option: definedness of the execution; inner Option: `none` is a panic. -/
def Result.unwrap (r : Result T E) : Option (Option T) :=
  (r.into_result).map coreUnwrap

/-- The PartialEq impl (lib.rs 218-227): matches the pair of
as_ref().into_result() views and compares same-variant payloads, with both
cross-variant cases returning false. -/
def Result.beq (eqT : T → T → Bool) (eqE : E → E → Bool)
    (a b : Result T E) : Option Bool :=
  match (a.as_ref).bind Result.into_result, (b.as_ref).bind Result.into_result with
  | some x, some y =>
    some (match x, y with
      | .ok ta, .ok tb => eqT ta tb
      | .error ea, .error eb => eqE ea eb
      | .ok _, .error _ => false
      | .error _, .ok _ => false)
  | some _, none => none
  | none, _ => none

/-- The Clone impl (lib.rs 200-216): copies the kind and clones only the
union arm the kind names, via the payload Clone implementations. -/
def Result.clone (cT : T → T) (cE : E → E) : Result T E → Option (Result T E)
  | ⟨.ok, d⟩ => (d.read_ok).map fun t => ⟨.ok, .ok (cT t)⟩
  | ⟨.err, d⟩ => (d.read_err).map fun e => ⟨.err, .err (cE e)⟩

/-- The Drop impl (lib.rs 229-242): runs ManuallyDrop::drop on exactly the
arm the kind names.  Returns (T-destructor count, E-destructor count). -/
def Result.dropGlue : Result T E → Option (Nat × Nat)
  | ⟨.ok, d⟩ => (d.read_ok).map fun _ => (1, 0)
  | ⟨.err, d⟩ => (d.read_err).map fun _ => (0, 1)

/-- Destructor count incurred when the caller later drops an Option
payload returned by ok/err: Some(v) drops v once, None drops nothing. -/
def optionDrops {α : Type} : Option α → Nat
  | some _ => 1
  | none => 0

/-- Destructor counts incurred when the caller later drops a native
core::result::Result: (T-destructors, E-destructors). -/
def exceptDrops : Except E T → Nat × Nat
  | .ok _ => (1, 0)
  | .error _ => (0, 1)

/-- Reorients a (T-destructors, E-destructors) pair into
(active-variant destructors, inactive-variant destructors) relative to a
discriminant. -/
def ResultKind.orient : ResultKind → Nat × Nat → Nat × Nat
  | .ok, d => d
  | .err, d => (d.2, d.1)

/-- Full lifecycle through Result::ok: destructors run inside ok() plus
the drop of the returned Option<T>. -/
def Result.okLifecycle (r : Result T E) : Option (Nat × Nat) :=
  (r.okInstr).map fun x => (x.2.1 + optionDrops x.1, x.2.2)

/-- Full lifecycle through Result::err: destructors run inside err() plus
the drop of the returned Option<E>. -/
def Result.errLifecycle (r : Result T E) : Option (Nat × Nat) :=
  (r.errInstr).map fun x => (x.2.1, x.2.2 + optionDrops x.1)

/-- Full lifecycle through Result::into_result: into_result runs no
destructor itself; the caller then drops the native result. -/
def Result.intoLifecycle (r : Result T E) : Option (Nat × Nat) :=
  (r.into_result).map exceptDrops

/-- Full lifecycle through into_result then from_result then the shell
destructor of the rebuilt value. -/
def Result.convertLifecycle (r : Result T E) : Option (Nat × Nat) :=
  ((r.into_result).map Result.from_result).bind Result.dropGlue

/-- C1: Round-trip conversion is lossless in both directions: for every
native result nr, into_result (from_result nr) = some nr, and for every
well-formed Tagged Result r, mapping from_result over into_result r gives
back exactly r (same discriminant, equal payload). -/
theorem C1_round_trip :
    (∀ (T E : Type) (nr : Except E T),
      (Result.from_result nr).into_result = some nr) ∧
    (∀ (T E : Type) (r : Result T E), r.wf = true →
      (r.into_result).map Result.from_result = some r) := by
  constructor
  · intro T E nr
    cases nr <;> rfl
  · intro T E r h
    obtain ⟨k, d⟩ := r
    cases k <;> cases d <;>
      simp_all [Result.wf, Result.into_result, Result.from_result,
        Result.new_ok, Result.new_err, ResultData.read_ok, ResultData.read_err]

/-- C1 witness: the round trip at a concrete well-formed value. -/
theorem C1_round_trip_witness :
    ((Result.new_ok 5 : Result Nat Nat).into_result).map Result.from_result
      = some (Result.new_ok 5) :=
  C1_round_trip.2 Nat Nat (Result.new_ok 5) rfl

/-- C2: map applies the transform on the Success arm only:
success(t).map(f).into_success_option() = Some (f t), while
failure(e).map(f) passes the failure through unchanged, so its
into_failure_option() is Some e, and the outcome on a failure does not
depend on f at all (f is never invoked). -/
theorem C2_map_spec :
    ∀ (T E T2 : Type) (t : T) (e : E) (f : T → T2),
      ((Result.new_ok t : Result T E).map f).bind Result.ok = some (some (f t)) ∧
      ((Result.new_err e : Result T E).map f) = some (Result.new_err e) ∧
      ((Result.new_err e : Result T E).map f).bind Result.err = some (some e) ∧
      (∀ g : T → T2, (Result.new_err e : Result T E).map f
          = (Result.new_err e : Result T E).map g) := by
  intro T E T2 t e f
  refine ⟨rfl, rfl, rfl, fun g => rfl⟩

/-- C3: unwrap returns the success value normally when the discriminant is
Success (success(t).unwrap() = t, for 5 in particular), and panics — the
inner none, returning no value — when the discriminant is Failure
(failure(e).unwrap() for "boom" in particular). -/
theorem C3_unwrap_spec :
    ∀ (T E : Type) (t : T) (e : E),
      (Result.new_ok t : Result T E).unwrap = some (some t) ∧
      (Result.new_err e : Result T E).unwrap = some none := by
  intro T E t e
  exact ⟨rfl, rfl⟩

/-- C4: on a well-formed Tagged Result, ok() moves the success value out
(returns Some, running no destructor) when the discriminant is Success,
and destructs the failure payload exactly once, returning None, when the
discriminant is Failure; err() is the exact mirror.  In every case exactly
one of move-out and destruct happens for the whole object. -/
theorem C4_ok_err_spec :
    ∀ (T E : Type) (r : Result T E), r.wf = true →
      (∀ t : T, r.data = .ok t →
        r.okInstr = some (some t, 0, 0) ∧ r.errInstr = some (none, 1, 0)) ∧
      (∀ e : E, r.data = .err e →
        r.okInstr = some (none, 0, 1) ∧ r.errInstr = some (some e, 0, 0)) := by
  intro T E r h
  obtain ⟨k, d⟩ := r
  cases k <;> cases d <;>
    simp_all [Result.wf, Result.okInstr, Result.errInstr,
      ResultData.read_ok, ResultData.read_err]

/-- C4 witness: the characterization at concrete values of both variants. -/
theorem C4_ok_err_witness :
    ((Result.new_ok 7 : Result Nat Nat).okInstr = some (some 7, 0, 0) ∧
      (Result.new_ok 7 : Result Nat Nat).errInstr = some (none, 1, 0)) ∧
    ((Result.new_err 9 : Result Nat Nat).okInstr = some (none, 0, 1) ∧
      (Result.new_err 9 : Result Nat Nat).errInstr = some (some 9, 0, 0)) :=
  ⟨(C4_ok_err_spec Nat Nat (Result.new_ok 7) rfl).1 7 rfl,
   (C4_ok_err_spec Nat Nat (Result.new_err 9) rfl).2 9 rfl⟩

/-- C5: on well-formed Tagged Results equality is total (never fatal, never
undefined) and holds exactly when the discriminants match and the active
payload values compare equal; in particular success(v) and failure(v) are
unequal even with identical payloads. -/
theorem C5_eq_spec :
    (∀ (T E : Type) (eqT : T → T → Bool) (eqE : E → E → Bool)
        (a b : Result T E), a.wf = true → b.wf = true →
      (Result.beq eqT eqE a b).isSome = true ∧
      (Result.beq eqT eqE a b = some true ↔
        (a.kind = b.kind ∧ ResultData.valEq eqT eqE a.data b.data = true))) ∧
    (∀ (T : Type) (eqT : T → T → Bool) (v : T),
      Result.beq eqT eqT (Result.new_ok v) (Result.new_err v) = some false) := by
  constructor
  · intro T E eqT eqE a b ha hb
    obtain ⟨ka, da⟩ := a
    obtain ⟨kb, db⟩ := b
    cases ka <;> cases da <;> cases kb <;> cases db <;>
      simp_all [Result.wf, Result.beq, Result.as_ref, Result.into_result,
        ResultData.read_ok, ResultData.read_err, ResultData.valEq]
  · intro T eqT v
    rfl

/-- C5 witness: equality behaviour at concrete well-formed values. -/
theorem C5_eq_witness :
    (Result.beq Nat.beq Nat.beq (Result.new_ok 3) (Result.new_ok 3)).isSome = true ∧
    (Result.beq Nat.beq Nat.beq (Result.new_ok 3) (Result.new_ok 3) = some true ↔
      ((Result.new_ok 3 : Result Nat Nat).kind = (Result.new_ok 3 : Result Nat Nat).kind ∧
        ResultData.valEq Nat.beq Nat.beq (Result.new_ok 3 : Result Nat Nat).data
          (Result.new_ok 3 : Result Nat Nat).data = true)) :=
  C5_eq_spec.1 Nat Nat Nat.beq Nat.beq (Result.new_ok 3) (Result.new_ok 3) rfl rfl

/-- C6: the constructor and predicate contract: success(t) answers true to
is_success and false to is_failure, and symmetrically for failure(e). -/
theorem C6_predicates :
    ∀ (T E : Type) (t : T) (e : E),
      (Result.new_ok t : Result T E).is_ok = true ∧
      (Result.new_ok t : Result T E).is_err = false ∧
      (Result.new_err e : Result T E).is_err = true ∧
      (Result.new_err e : Result T E).is_ok = false := by
  intro T E t e
  exact ⟨rfl, rfl, rfl, rfl⟩

/-- C7: cloning a well-formed Tagged Result always succeeds and preserves
the discriminant; with value-faithful payload clones the clone equals the
original; and the clone carries its own, independent destructor obligation
(its shell drop destructs its active payload exactly as the original does). -/
theorem C7_clone_spec :
    ∀ (T E : Type) (r : Result T E), r.wf = true →
      (∀ (cT : T → T) (cE : E → E),
        (r.clone cT cE).map Result.kind = some r.kind) ∧
      r.clone id id = some r ∧
      (r.clone id id).bind Result.dropGlue = r.dropGlue ∧
      (r.dropGlue).isSome = true := by
  intro T E r h
  obtain ⟨k, d⟩ := r
  cases k <;> cases d <;>
    simp_all [Result.wf, Result.clone, Result.dropGlue,
      ResultData.read_ok, ResultData.read_err]

/-- C7 witness: cloning a concrete success value. -/
theorem C7_clone_witness :
    ((∀ (cT : Nat → Nat) (cE : Nat → Nat),
        ((Result.new_ok 4 : Result Nat Nat).clone cT cE).map Result.kind
          = some (Result.new_ok 4 : Result Nat Nat).kind) ∧
      (Result.new_ok 4 : Result Nat Nat).clone id id = some (Result.new_ok 4) ∧
      ((Result.new_ok 4 : Result Nat Nat).clone id id).bind Result.dropGlue
        = (Result.new_ok 4 : Result Nat Nat).dropGlue ∧
      ((Result.new_ok 4 : Result Nat Nat).dropGlue).isSome = true) :=
  C7_clone_spec Nat Nat (Result.new_ok 4) rfl

/-- C8: over each modelled lifecycle of a well-formed Tagged Result —
construct and drop, consume through ok(), consume through err(), convert
to the native result and drop it, or round-trip through the native result
and drop the rebuilt shell — the destructor of the active variant runs
exactly once and the destructor of the inactive variant runs exactly zero
times. -/
theorem C8_drop_spec :
    ∀ (T E : Type) (r : Result T E), r.wf = true →
      (r.dropGlue).map (r.kind.orient) = some (1, 0) ∧
      (r.okLifecycle).map (r.kind.orient) = some (1, 0) ∧
      (r.errLifecycle).map (r.kind.orient) = some (1, 0) ∧
      (r.intoLifecycle).map (r.kind.orient) = some (1, 0) ∧
      (r.convertLifecycle).map (r.kind.orient) = some (1, 0) := by
  intro T E r h
  obtain ⟨k, d⟩ := r
  cases k <;> cases d <;>
    simp_all [Result.wf, Result.dropGlue, Result.okLifecycle,
      Result.errLifecycle, Result.intoLifecycle, Result.convertLifecycle,
      Result.okInstr, Result.errInstr, Result.into_result, Result.from_result,
      Result.new_ok, Result.new_err, ResultKind.orient, optionDrops,
      exceptDrops, ResultData.read_ok, ResultData.read_err]

/-- C8 witness: the destructor accounting at a concrete failure value. -/
theorem C8_drop_witness :
    ((Result.new_err 2 : Result Nat Nat).dropGlue).map
        ((Result.new_err 2 : Result Nat Nat).kind.orient) = some (1, 0) ∧
    ((Result.new_err 2 : Result Nat Nat).okLifecycle).map
        ((Result.new_err 2 : Result Nat Nat).kind.orient) = some (1, 0) ∧
    ((Result.new_err 2 : Result Nat Nat).errLifecycle).map
        ((Result.new_err 2 : Result Nat Nat).kind.orient) = some (1, 0) ∧
    ((Result.new_err 2 : Result Nat Nat).intoLifecycle).map
        ((Result.new_err 2 : Result Nat Nat).kind.orient) = some (1, 0) ∧
    ((Result.new_err 2 : Result Nat Nat).convertLifecycle).map
        ((Result.new_err 2 : Result Nat Nat).kind.orient) = some (1, 0) :=
  C8_drop_spec Nat Nat (Result.new_err 2) rfl

/-- C10: is_success and is_failure are exact complements on every Tagged
Result, well-formed or not, because both read only the discriminant and
the discriminant ranges over exactly the two values Success and Failure. -/
theorem C10_complement :
    ∀ (T E : Type) (r : Result T E), r.is_err = !r.is_ok := by
  intro T E r
  obtain ⟨k, d⟩ := r
  cases k <;> rfl

end FFI
